import Mathlib

/-!
Verification development for the terminal MP3 player
(`src/visualizer/player.py`).

The mutable `MP3Player` object is split into two records: `PlaybackState`
holds the playback-clock fields (timestamps modelled as rationals standing
for the `time.time()` floats), and `VisState` holds the 64-band visualizer
fields (modelled over the reals, because the tick uses `sin` and a
fractional power).  External effects enter as explicit arguments:

* `busy` stands for `mixer.music.get_busy()`;
* `loadOk` stands for the `mixer.music.load`/`play` calls not raising;
* `probe` stands for the result of `pygame.mixer.Sound(path).get_length()`
  (`none` when that call raises, i.e. the except-branch of `play_song`);
* `now` stands for `time.time()`;
* `VisEnv` packages the wall-clock time and the per-tick random draws of
  `generate_visualizer_data`.
-/

/-- Playback-clock fields of the `MP3Player` object, in declaration order
of `__init__` (the purely cosmetic fields `songs_dir` and `running` are
I/O glue and omitted). -/
structure PlaybackState where
  songs : List String
  current_song_index : ℤ
  paused : Bool
  volume : ℚ
  song_start_time : ℚ
  pause_time : ℚ
  seek_offset : ℚ
  current_song_length : ℚ

/-- `MP3Player.get_song_position`: `0` when the mixer is not busy, else
`seek_offset` plus elapsed time (frozen at `pause_time` while paused). -/
def get_song_position (busy : Bool) (now : ℚ) (s : PlaybackState) : ℚ :=
  if !busy then 0
  else if s.paused then s.seek_offset + (s.pause_time - s.song_start_time)
  else s.seek_offset + (now - s.song_start_time)

/-- `MP3Player.get_song_length`: the cached length. -/
def get_song_length (s : PlaybackState) : ℚ :=
  s.current_song_length

/-- `MP3Player.toggle_pause`: on resume, shift `song_start_time` forward by
the pause duration; on pause, record `pause_time`. -/
def toggle_pause (now : ℚ) (s : PlaybackState) : PlaybackState :=
  if s.paused then
    { s with song_start_time := s.song_start_time + (now - s.pause_time),
             paused := false }
  else
    { s with pause_time := now, paused := true }

/-- `MP3Player.play_song(start_pos)`: no-op on an empty song list or when
loading/playing raises; otherwise restart the clock at `start_pos` and
cache the probed length (`0` when the probe raises). -/
def play_song (now : ℚ) (loadOk : Bool) (probe : Option ℚ) (start_pos : ℚ)
    (s : PlaybackState) : PlaybackState :=
  if s.songs.isEmpty then s
  else if !loadOk then s
  else { s with paused := false,
                song_start_time := now,
                seek_offset := start_pos,
                current_song_length := probe.getD 0 }

/-- `MP3Player.next_song`: advance the index modulo the track count (Python
`%` on a positive modulus is Euclidean `%`), then `play_song()` with the
default `start_pos = 0`. -/
def next_song (now : ℚ) (loadOk : Bool) (probe : Option ℚ)
    (s : PlaybackState) : PlaybackState :=
  if s.songs.isEmpty then s
  else play_song now loadOk probe 0
    { s with current_song_index :=
        (s.current_song_index + 1) % (s.songs.length : ℤ) }

/-- `MP3Player.prev_song`: retreat the index modulo the track count, then
`play_song()` with the default `start_pos = 0`. -/
def prev_song (now : ℚ) (loadOk : Bool) (probe : Option ℚ)
    (s : PlaybackState) : PlaybackState :=
  if s.songs.isEmpty then s
  else play_song now loadOk probe 0
    { s with current_song_index :=
        (s.current_song_index - 1) % (s.songs.length : ℤ) }

/-- `MP3Player.seek_backward`: guard on a non-empty list and a busy mixer,
then restart the song at `max(0, position - 10)`. -/
def seek_backward (busy : Bool) (now : ℚ) (loadOk : Bool) (probe : Option ℚ)
    (s : PlaybackState) : PlaybackState :=
  if s.songs.isEmpty || !busy then s
  else play_song now loadOk probe (max 0 (get_song_position busy now s - 10)) s

/-- `MP3Player.seek_forward`: guard as in `seek_backward`, then restart the
song at `position + 10` (no clamp in the source). -/
def seek_forward (busy : Bool) (now : ℚ) (loadOk : Bool) (probe : Option ℚ)
    (s : PlaybackState) : PlaybackState :=
  if s.songs.isEmpty || !busy then s
  else play_song now loadOk probe (get_song_position busy now s + 10) s

/-- The `progress` value computed by `draw_progress_bar`:
`min(1.0, position / length)` when `length > 0`, else `0`. -/
def progress_of (busy : Bool) (now : ℚ) (s : PlaybackState) : ℚ :=
  if get_song_length s > 0 then
    min 1 (get_song_position busy now s / get_song_length s)
  else 0

/-! ## Bar renderer geometry (`draw_visualizer`)

`width` is the `width` argument of `draw_visualizer`; Python `//` and `%`
on the positive modulus 64 coincide with Lean's Euclidean `/` and `%` on
`ℤ`. -/

/-- `available_width = width - 4` (small margins). -/
def available_width (width : ℤ) : ℤ :=
  width - 4

/-- `bar_width = max(1, available_width // bar_count)` with `bar_count = 64`. -/
def bar_width (width : ℤ) : ℤ :=
  max 1 (available_width width / 64)

/-- `remainder = available_width % bar_count`: leftover columns. -/
def width_remainder (width : ℤ) : ℤ :=
  available_width width % 64

/-- `current_bar_width = bar_width + (1 if i < remainder else 0)` for bar `i`. -/
def current_bar_width (width : ℤ) (i : ℕ) : ℤ :=
  bar_width width + (if (i : ℤ) < width_remainder width then 1 else 0)

/-- Total number of columns assigned to the 64 bars. -/
def total_bar_width (width : ℤ) : ℤ :=
  ∑ i in Finset.range 64, current_bar_width width i

/-! ## Visualizer engine (`generate_visualizer_data`) -/

/-- Visualizer fields of the `MP3Player` object: the blended spectrum, the
peak-hold values and the smoothed beat scalar. -/
structure VisState where
  audio_data : Fin 64 → ℝ
  peak_data : Fin 64 → ℝ
  beat_intensity : ℝ

/-- Per-tick inputs of `generate_visualizer_data`: the mixer-busy flag and
the `paused` flag (the branch condition reads both), the wall-clock time,
and the random draws — `drop` for `np.random.random() < 0.015`, `rnd i` for
the per-band `np.random.random()` call, `spike` for the optional
energy-spike band (`some b` when `np.random.random() < 0.12` picked `b`). -/
structure VisEnv where
  busy : Bool
  paused : Bool
  current_time : ℝ
  drop : Bool
  rnd : Fin 64 → ℝ
  spike : Option (Fin 64)

/-- `beat = (np.sin(current_time * 1.8 * 2 * np.pi) + 1) / 2`. -/
noncomputable def beat_of (current_time : ℝ) : ℝ :=
  (Real.sin (current_time * 1.8 * 2 * Real.pi) + 1) / 2

/-- Beat-intensity update: exponential smoothing, then the occasional
`* 0.3` drop. -/
noncomputable def beat_update (drop : Bool) (beat bi : ℝ) : ℝ :=
  let b := bi * 0.75 + beat * 0.25
  if drop then b * 0.3 else b

/-- The raw `new_data` frame: five contiguous band groups, each a product
of a `beat_intensity` base, a per-band random variation and (for some
groups) a linear taper; transcribed from the five loops of the source. -/
noncomputable def new_data_raw (bi : ℝ) (rnd : Fin 64 → ℝ) (i : Fin 64) : ℝ :=
  if (i : ℕ) < 16 then
    bi ^ (1.3 : ℝ) * 1.6 * (rnd i * 0.6 + 0.7) * (1 - ((i : ℕ) : ℝ) / 25)
  else if (i : ℕ) < 28 then
    bi * 1.35 * (rnd i * 0.7 + 0.6) * (1 - (((i : ℕ) : ℝ) - 16) / 20)
  else if (i : ℕ) < 41 then
    bi * 1.2 * (rnd i * 0.8 + 0.5)
  else if (i : ℕ) < 53 then
    bi * 1.0 * (rnd i * 0.9 + 0.4)
  else
    bi * 0.85 * (rnd i * 1.0 + 0.3) * (0.9 - (((i : ℕ) : ℝ) - 53) / 18)

/-- The optional energy spike:
`new_data[spike_bar] = min(2.2, new_data[spike_bar] + 0.7)`. -/
noncomputable def apply_spike (spike : Option (Fin 64)) (d : Fin 64 → ℝ) :
    Fin 64 → ℝ :=
  match spike with
  | none => d
  | some b => Function.update d b (min 2.2 (d b + 0.7))

/-- `np.clip(new_data, 0, 2.2)`, element-wise. -/
noncomputable def clip22 (d : Fin 64 → ℝ) (i : Fin 64) : ℝ :=
  min 2.2 (max 0 (d i))

/-- The `isPlaying` branch of `generate_visualizer_data`: update the beat
intensity, synthesize/spike/clip `new_data`, blend it into `audio_data`
(`0.35` old, `0.65` new) and snap-or-decay the peaks. -/
noncomputable def playing_tick (env : VisEnv) (s : VisState) : VisState :=
  let bi := beat_update env.drop (beat_of env.current_time) s.beat_intensity
  let clipped := clip22 (apply_spike env.spike (new_data_raw bi env.rnd))
  let audio := fun i => s.audio_data i * 0.35 + clipped i * 0.65
  { audio_data := audio,
    peak_data := fun i =>
      if audio i > s.peak_data i then audio i else s.peak_data i * 0.94,
    beat_intensity := bi }

/-- The fade (else) branch of `generate_visualizer_data`:
`audio_data *= 0.82`, `peak_data *= 0.88`, `beat_intensity *= 0.85`. -/
noncomputable def fade_tick (s : VisState) : VisState :=
  { audio_data := fun i => s.audio_data i * 0.82,
    peak_data := fun i => s.peak_data i * 0.88,
    beat_intensity := s.beat_intensity * 0.85 }

/-- `MP3Player.generate_visualizer_data`: one visualizer tick.  The branch
condition is `mixer.music.get_busy() and not self.paused`. -/
noncomputable def generate_visualizer_data (env : VisEnv) (s : VisState) :
    VisState :=
  if env.busy && !env.paused then playing_tick env s else fade_tick s

/-- The initial visualizer state from `__init__`:
`np.zeros(64)`, `np.zeros(64)`, `0`. -/
noncomputable def visInit : VisState :=
  { audio_data := fun _ => 0, peak_data := fun _ => 0, beat_intensity := 0 }

/-- Visualizer states reachable from startup by any sequence of ticks. -/
inductive VisReachable : VisState → Prop
  | init : VisReachable visInit
  | step (env : VisEnv) {s : VisState} :
      VisReachable s → VisReachable (generate_visualizer_data env s)

/-- A run of consecutive ticks (left fold over the tick environments). -/
noncomputable def vis_run (envs : List VisEnv) (s : VisState) : VisState :=
  envs.foldl (fun st e => generate_visualizer_data e st) s

/-- Invariant carried by every reachable visualizer state: both frames stay
in `[0, 2.2]`, `0.94 * audio_data i ≤ peak_data i`, and the beat intensity
stays in `[0, 1]`. -/
def VisInv (s : VisState) : Prop :=
  (∀ i, 0 ≤ s.audio_data i ∧ s.audio_data i ≤ 2.2) ∧
  (∀ i, 0 ≤ s.peak_data i ∧ s.peak_data i ≤ 2.2) ∧
  (∀ i, s.audio_data i * 0.94 ≤ s.peak_data i) ∧
  (0 ≤ s.beat_intensity ∧ s.beat_intensity ≤ 1)

/-! ## Helper lemmas -/

lemma beat_of_mem (t : ℝ) : 0 ≤ beat_of t ∧ beat_of t ≤ 1 := by
  have h1 := Real.neg_one_le_sin (t * 1.8 * 2 * Real.pi)
  have h2 := Real.sin_le_one (t * 1.8 * 2 * Real.pi)
  unfold beat_of
  constructor <;> linarith

lemma beat_update_mem (drop : Bool) (beat bi : ℝ)
    (hb : 0 ≤ beat ∧ beat ≤ 1) (hbi : 0 ≤ bi ∧ bi ≤ 1) :
    0 ≤ beat_update drop beat bi ∧ beat_update drop beat bi ≤ 1 := by
  unfold beat_update
  cases drop <;> simp <;> constructor <;> linarith [hb.1, hb.2, hbi.1, hbi.2]

lemma clip22_mem (d : Fin 64 → ℝ) (i : Fin 64) :
    0 ≤ clip22 d i ∧ clip22 d i ≤ 2.2 := by
  unfold clip22
  refine ⟨le_min (by norm_num) (le_max_left 0 (d i)), min_le_left _ _⟩

lemma playing_tick_audio (env : VisEnv) (s : VisState) (i : Fin 64) :
    (playing_tick env s).audio_data i =
      s.audio_data i * 0.35 +
        clip22 (apply_spike env.spike (new_data_raw
          (beat_update env.drop (beat_of env.current_time) s.beat_intensity)
          env.rnd)) i * 0.65 :=
  rfl

lemma playing_tick_peak (env : VisEnv) (s : VisState) (i : Fin 64) :
    (playing_tick env s).peak_data i =
      if (playing_tick env s).audio_data i > s.peak_data i then
        (playing_tick env s).audio_data i
      else s.peak_data i * 0.94 :=
  rfl

lemma playing_tick_bi (env : VisEnv) (s : VisState) :
    (playing_tick env s).beat_intensity =
      beat_update env.drop (beat_of env.current_time) s.beat_intensity :=
  rfl

lemma playing_tick_audio_mem (env : VisEnv) (s : VisState) (i : Fin 64)
    (hA : 0 ≤ s.audio_data i ∧ s.audio_data i ≤ 2.2) :
    0 ≤ (playing_tick env s).audio_data i ∧
      (playing_tick env s).audio_data i ≤ 2.2 := by
  rw [playing_tick_audio]
  have hc := clip22_mem (apply_spike env.spike (new_data_raw
    (beat_update env.drop (beat_of env.current_time) s.beat_intensity)
    env.rnd)) i
  constructor <;> linarith [hA.1, hA.2, hc.1, hc.2]

lemma visInv_init : VisInv visInit := by
  unfold VisInv visInit
  norm_num

lemma visInv_step (env : VisEnv) (s : VisState) (h : VisInv s) :
    VisInv (generate_visualizer_data env s) := by
  obtain ⟨hA, hP, hR, hb⟩ := h
  unfold generate_visualizer_data
  split_ifs with hp
  · refine ⟨fun i => playing_tick_audio_mem env s i (hA i), fun i => ?_,
      fun i => ?_, ?_⟩
    · rw [playing_tick_peak]
      split_ifs with hgt
      · exact playing_tick_audio_mem env s i (hA i)
      · constructor <;> linarith [(hP i).1, (hP i).2]
    · rw [playing_tick_peak]
      split_ifs with hgt
      · have := (playing_tick_audio_mem env s i (hA i)).1
        linarith
      · push_neg at hgt
        linarith
    · rw [playing_tick_bi]
      exact beat_update_mem env.drop _ _ (beat_of_mem env.current_time) hb
  · unfold fade_tick
    refine ⟨fun i => ⟨?_, ?_⟩, fun i => ⟨?_, ?_⟩, fun i => ?_, ?_, ?_⟩ <;>
      simp only
    · linarith [(hA i).1]
    · linarith [(hA i).2]
    · linarith [(hP i).1]
    · linarith [(hP i).2]
    · linarith [hR i, (hA i).1]
    · linarith [hb.1]
    · linarith [hb.1, hb.2]

lemma visInv_reachable {s : VisState} (h : VisReachable s) : VisInv s := by
  induction h with
  | init => exact visInv_init
  | step env _ ih => exact visInv_step env _ ih

lemma fade_of_not_playing (env : VisEnv) (s : VisState)
    (h : (env.busy && !env.paused) = false) :
    generate_visualizer_data env s = fade_tick s := by
  unfold generate_visualizer_data
  rw [h]
  simp

lemma sum_range_ite_lt (k : ℕ) :
    ∀ n : ℕ, k ≤ n →
      ∑ i in Finset.range n, (if i < k then (1 : ℤ) else 0) = k := by
  intro n
  induction n with
  | zero =>
    intro hk
    simp [Nat.le_zero.mp hk]
  | succ n ih =>
    intro hk
    rcases Nat.lt_or_ge k (n + 1) with h | h
    · have hkn : k ≤ n := Nat.lt_succ_iff.mp h
      rw [Finset.sum_range_succ, ih hkn, if_neg (by omega)]
      ring
    · have hk1 : k = n + 1 := le_antisymm hk h
      subst hk1
      rw [Finset.sum_range_succ, if_pos (by omega)]
      have hall : ∀ i ∈ Finset.range n, (if i < n + 1 then (1 : ℤ) else 0) = 1 := by
        intro i hi
        exact if_pos (Nat.lt_succ_of_lt (Finset.mem_range.mp hi))
      rw [Finset.sum_congr rfl hall, Finset.sum_const, Finset.card_range]
      push_cast
      ring

/-! ## Sample states used by witnesses -/

/-- A one-track playing state: position `3 + (now - 0)` while the mixer is
busy. -/
def sSeek : PlaybackState :=
  { songs := ["a"], current_song_index := 0, paused := false, volume := 0.7,
    song_start_time := 0, pause_time := 0, seek_offset := 3,
    current_song_length := 120 }

/-- A three-track state currently on the last track (index 2). -/
def sThree : PlaybackState :=
  { songs := ["a", "b", "c"], current_song_index := 2, paused := false,
    volume := 0.7, song_start_time := 0, pause_time := 0, seek_offset := 0,
    current_song_length := 120 }

/-- A three-track state currently on the first track (index 0). -/
def sThree0 : PlaybackState :=
  { songs := ["a", "b", "c"], current_song_index := 0, paused := false,
    volume := 0.7, song_start_time := 0, pause_time := 0, seek_offset := 0,
    current_song_length := 120 }

/-! ## Claim theorems -/

/-- Claim C1: while the mixer is busy, `get_song_position` returns
`seek_offset + (paused ? pause_time : now) - song_start_time`, for every
playback state and every wall-clock time — in particular for every state
reachable by arbitrary sequences of pause/resume. -/
theorem claim_C1 (now : ℚ) (s : PlaybackState) :
    get_song_position true now s =
      s.seek_offset + (if s.paused then s.pause_time else now) -
        s.song_start_time := by
  unfold get_song_position
  simp only [Bool.not_true, Bool.false_eq_true, if_false]
  split_ifs with h <;> ring

/-- Claim C2: pausing at time `t1` and resuming at time `t2` leaves the
reported position unchanged — the position right after the resume (and the
one reported throughout the pause) equals the position right before the
pause. -/
theorem claim_C2 (s : PlaybackState) (hpause : s.paused = false) (t1 t2 : ℚ) :
    get_song_position true t2 (toggle_pause t2 (toggle_pause t1 s)) =
      get_song_position true t1 s ∧
    get_song_position true t1 (toggle_pause t1 s) =
      get_song_position true t1 s := by
  unfold toggle_pause get_song_position
  simp [hpause]
  ring

/-- Witness for C2 at a concrete state: pause at `t1 = 5`, resume at
`t2 = 9`. -/
theorem claim_C2_witness :
    sSeek.paused = false ∧
    (get_song_position true 9 (toggle_pause 9 (toggle_pause 5 sSeek)) =
        get_song_position true 5 sSeek ∧
      get_song_position true 5 (toggle_pause 5 sSeek) =
        get_song_position true 5 sSeek) :=
  ⟨rfl, claim_C2 sSeek rfl 5 9⟩

/-- Claim C6: with a non-empty track list and a busy mixer, a successful
`seek_backward` sets the new offset to `max(0, position - 10)`; the offset
is therefore never negative, and from position `3` it is exactly `0`. -/
theorem claim_C6 (now : ℚ) (probe : Option ℚ) (s : PlaybackState)
    (hsongs : s.songs.isEmpty = false) :
    (seek_backward true now true probe s).seek_offset =
      max 0 (get_song_position true now s - 10) ∧
    0 ≤ (seek_backward true now true probe s).seek_offset ∧
    (get_song_position true now s = 3 →
      (seek_backward true now true probe s).seek_offset = 0) := by
  unfold seek_backward play_song
  simp [hsongs]
  intro h
  rw [h]
  norm_num

/-- Witness for C6: in `sSeek` at `now = 0` the position is `3`, and
seeking back 10 seconds restarts at offset exactly `0`. -/
theorem claim_C6_witness :
    sSeek.songs.isEmpty = false ∧
    ((seek_backward true 0 true none sSeek).seek_offset =
        max 0 (get_song_position true 0 sSeek - 10) ∧
      0 ≤ (seek_backward true 0 true none sSeek).seek_offset ∧
      (get_song_position true 0 sSeek = 3 →
        (seek_backward true 0 true none sSeek).seek_offset = 0)) :=
  ⟨rfl, claim_C6 0 none sSeek rfl⟩

/-- Claim C8: with a non-empty track list, `next_song` maps the index to
`(i + 1) % n` and `prev_song` to `(i - 1) % n` (Euclidean `%`, as in
Python), where `n` is the track count. -/
theorem claim_C8 (now : ℚ) (loadOk : Bool) (probe : Option ℚ)
    (s : PlaybackState) (hsongs : s.songs.isEmpty = false) :
    (next_song now loadOk probe s).current_song_index =
      (s.current_song_index + 1) % (s.songs.length : ℤ) ∧
    (prev_song now loadOk probe s).current_song_index =
      (s.current_song_index - 1) % (s.songs.length : ℤ) := by
  unfold next_song prev_song play_song
  cases loadOk <;> simp [hsongs]

/-- Witness for C8 with three tracks: `next_song` from index 2 wraps to 0
and `prev_song` from index 0 wraps to 2. -/
theorem claim_C8_witness :
    sThree.songs.isEmpty = false ∧
    (next_song 0 true none sThree).current_song_index = 0 ∧
    (prev_song 0 true none sThree0).current_song_index = 2 := by
  refine ⟨rfl, ?_, ?_⟩
  · rw [(claim_C8 0 true none sThree rfl).1]
    decide
  · rw [(claim_C8 0 true none sThree0 rfl).2]
    decide

/-- Claim C9: when the length probe fails (`probe = none`), `play_song`
caches a track length of `0`, and with a cached length of `0` the progress
value of `draw_progress_bar` is exactly `0` at every wall-clock time. -/
theorem claim_C9 (now start_pos : ℚ) (s : PlaybackState)
    (hsongs : s.songs.isEmpty = false) :
    (play_song now true none start_pos s).current_song_length = 0 ∧
    ∀ (busy : Bool) (t : ℚ),
      progress_of busy t (play_song now true none start_pos s) = 0 := by
  unfold play_song progress_of get_song_length
  simp [hsongs]

/-- Witness for C9: a failed probe on the concrete state `sSeek` yields
cached length `0` and progress `0`. -/
theorem claim_C9_witness :
    sSeek.songs.isEmpty = false ∧
    ((play_song 7 true none 0 sSeek).current_song_length = 0 ∧
      ∀ (busy : Bool) (t : ℚ),
        progress_of busy t (play_song 7 true none 0 sSeek) = 0) :=
  ⟨rfl, claim_C9 7 0 sSeek rfl⟩

/-- Claim C3: every visualizer state reachable from startup by any
sequence of ticks (playing or not) keeps every band of the spectrum frame
and of the peak frame inside the closed interval `[0, 2.2]`. -/
theorem claim_C3 (s : VisState) (hs : VisReachable s) :
    ∀ i : Fin 64,
      (0 ≤ s.audio_data i ∧ s.audio_data i ≤ 2.2) ∧
      (0 ≤ s.peak_data i ∧ s.peak_data i ≤ 2.2) := by
  obtain ⟨hA, hP, _, _⟩ := visInv_reachable hs
  exact fun i => ⟨hA i, hP i⟩

/-- Witness for C3 at the startup state. -/
theorem claim_C3_witness :
    VisReachable visInit ∧
    ∀ i : Fin 64,
      (0 ≤ visInit.audio_data i ∧ visInit.audio_data i ≤ 2.2) ∧
      (0 ≤ visInit.peak_data i ∧ visInit.peak_data i ≤ 2.2) :=
  ⟨.init, claim_C3 visInit .init⟩

/-- Claim C4: for one tick from any reachable state, each band's peak
either snaps up to the new (post-blend) spectrum value when that value
exceeds the previous peak, or does not increase — and this holds in both
the playing and the not-playing branch. -/
theorem claim_C4 (env : VisEnv) (s : VisState) (hs : VisReachable s) :
    ∀ i : Fin 64,
      ((generate_visualizer_data env s).audio_data i > s.peak_data i →
        (generate_visualizer_data env s).peak_data i =
          (generate_visualizer_data env s).audio_data i) ∧
      ((generate_visualizer_data env s).audio_data i ≤ s.peak_data i →
        (generate_visualizer_data env s).peak_data i ≤ s.peak_data i) := by
  obtain ⟨hA, hP, hR, _⟩ := visInv_reachable hs
  intro i
  unfold generate_visualizer_data
  split_ifs with hp
  · constructor
    · intro hgt
      rw [playing_tick_peak, if_pos hgt]
    · intro hle
      rw [playing_tick_peak, if_neg (by push_neg; exact hle)]
      linarith [(hP i).1]
  · unfold fade_tick
    simp only
    constructor
    · intro hgt
      exfalso
      have h1 := hR i
      have h2 := (hA i).1
      linarith
    · intro _
      linarith [(hP i).1]

/-- Witness for C4: one tick from the startup state with a concrete
environment. -/
theorem claim_C4_witness :
    VisReachable visInit ∧
    ∀ i : Fin 64,
      ((generate_visualizer_data
          ⟨true, false, 0, false, fun _ => 0, none⟩ visInit).audio_data i >
            visInit.peak_data i →
        (generate_visualizer_data
          ⟨true, false, 0, false, fun _ => 0, none⟩ visInit).peak_data i =
          (generate_visualizer_data
            ⟨true, false, 0, false, fun _ => 0, none⟩ visInit).audio_data i) ∧
      ((generate_visualizer_data
          ⟨true, false, 0, false, fun _ => 0, none⟩ visInit).audio_data i ≤
            visInit.peak_data i →
        (generate_visualizer_data
          ⟨true, false, 0, false, fun _ => 0, none⟩ visInit).peak_data i ≤
          visInit.peak_data i) :=
  ⟨.init, claim_C4 ⟨true, false, 0, false, fun _ => 0, none⟩ visInit .init⟩

/-- Claim C7: a run of `N` consecutive not-playing ticks multiplies every
spectrum band by exactly `0.82 ^ N`, every peak band by exactly `0.88 ^ N`
and the beat intensity by exactly `0.85 ^ N`, independently of the random
draws; in particular (given non-negative starting values) none of these
quantities ever increases. -/
theorem claim_C7 (envs : List VisEnv)
    (h : ∀ e ∈ envs, (e.busy && !e.paused) = false) (s : VisState) :
    ((∀ i, (vis_run envs s).audio_data i =
        0.82 ^ envs.length * s.audio_data i) ∧
      (∀ i, (vis_run envs s).peak_data i =
        0.88 ^ envs.length * s.peak_data i) ∧
      (vis_run envs s).beat_intensity =
        0.85 ^ envs.length * s.beat_intensity) ∧
    ((∀ i, 0 ≤ s.audio_data i →
        (vis_run envs s).audio_data i ≤ s.audio_data i) ∧
      (∀ i, 0 ≤ s.peak_data i →
        (vis_run envs s).peak_data i ≤ s.peak_data i) ∧
      (0 ≤ s.beat_intensity →
        (vis_run envs s).beat_intensity ≤ s.beat_intensity)) := by
  have key : ∀ (l : List VisEnv), (∀ e ∈ l, (e.busy && !e.paused) = false) →
      ∀ t : VisState,
      (∀ i, (vis_run l t).audio_data i = 0.82 ^ l.length * t.audio_data i) ∧
      (∀ i, (vis_run l t).peak_data i = 0.88 ^ l.length * t.peak_data i) ∧
      (vis_run l t).beat_intensity = 0.85 ^ l.length * t.beat_intensity := by
    intro l
    induction l with
    | nil =>
      intro _ t
      refine ⟨fun i => ?_, fun i => ?_, ?_⟩ <;> simp [vis_run]
    | cons e es ih =>
      intro hl t
      have he : (e.busy && !e.paused) = false := hl e (List.mem_cons_self e es)
      have hes : ∀ e2 ∈ es, (e2.busy && !e2.paused) = false :=
        fun e2 h2 => hl e2 (List.mem_cons_of_mem e h2)
      have hrun : vis_run (e :: es) t = vis_run es (fade_tick t) := by
        unfold vis_run
        rw [List.foldl_cons, fade_of_not_playing e t he]
      obtain ⟨ha, hpk, hbi⟩ := ih hes (fade_tick t)
      refine ⟨fun i => ?_, fun i => ?_, ?_⟩ <;>
        rw [hrun, List.length_cons]
      · rw [ha i]
        unfold fade_tick
        simp only
        ring
      · rw [hpk i]
        unfold fade_tick
        simp only
        ring
      · rw [hbi]
        unfold fade_tick
        simp only
        ring
  obtain ⟨ha, hpk, hbi⟩ := key envs h s
  have h82 : (0.82 : ℝ) ^ envs.length ≤ 1 := pow_le_one₀ (by norm_num) (by norm_num)
  have h88 : (0.88 : ℝ) ^ envs.length ≤ 1 := pow_le_one₀ (by norm_num) (by norm_num)
  have h85 : (0.85 : ℝ) ^ envs.length ≤ 1 := pow_le_one₀ (by norm_num) (by norm_num)
  refine ⟨⟨ha, hpk, hbi⟩, fun i hi => ?_, fun i hi => ?_, fun hb => ?_⟩
  · rw [ha i]
    nlinarith
  · rw [hpk i]
    nlinarith
  · rw [hbi]
    nlinarith

/-- Witness for C7: a single not-playing tick from a concrete state with
all bands and the beat intensity at `1`. -/
theorem claim_C7_witness :
    (∀ e ∈ [(⟨false, false, 0, false, fun _ => 0, none⟩ : VisEnv)],
      (e.busy && !e.paused) = false) ∧
    (((∀ i, (vis_run [⟨false, false, 0, false, fun _ => 0, none⟩]
          ⟨fun _ => 1, fun _ => 1, 1⟩).audio_data i =
        0.82 ^ [(⟨false, false, 0, false, fun _ => 0, none⟩ : VisEnv)].length * (⟨fun _ => 1, fun _ => 1, 1⟩ : VisState).audio_data i) ∧
      (∀ i, (vis_run [⟨false, false, 0, false, fun _ => 0, none⟩]
          ⟨fun _ => 1, fun _ => 1, 1⟩).peak_data i =
        0.88 ^ [(⟨false, false, 0, false, fun _ => 0, none⟩ : VisEnv)].length * (⟨fun _ => 1, fun _ => 1, 1⟩ : VisState).peak_data i) ∧
      (vis_run [⟨false, false, 0, false, fun _ => 0, none⟩]
          ⟨fun _ => 1, fun _ => 1, 1⟩).beat_intensity =
        0.85 ^ [(⟨false, false, 0, false, fun _ => 0, none⟩ : VisEnv)].length * (⟨fun _ => 1, fun _ => 1, 1⟩ : VisState).beat_intensity) ∧
    ((∀ i, 0 ≤ (⟨fun _ => 1, fun _ => 1, 1⟩ : VisState).audio_data i →
        (vis_run [⟨false, false, 0, false, fun _ => 0, none⟩]
          ⟨fun _ => 1, fun _ => 1, 1⟩).audio_data i ≤ (⟨fun _ => 1, fun _ => 1, 1⟩ : VisState).audio_data i) ∧
      (∀ i, 0 ≤ (⟨fun _ => 1, fun _ => 1, 1⟩ : VisState).peak_data i →
        (vis_run [⟨false, false, 0, false, fun _ => 0, none⟩]
          ⟨fun _ => 1, fun _ => 1, 1⟩).peak_data i ≤ (⟨fun _ => 1, fun _ => 1, 1⟩ : VisState).peak_data i) ∧
      (0 ≤ (⟨fun _ => 1, fun _ => 1, 1⟩ : VisState).beat_intensity →
        (vis_run [⟨false, false, 0, false, fun _ => 0, none⟩]
          ⟨fun _ => 1, fun _ => 1, 1⟩).beat_intensity ≤ (⟨fun _ => 1, fun _ => 1, 1⟩ : VisState).beat_intensity))) := by
  constructor
  · intro e he
    rw [List.mem_singleton] at he
    subst he
    rfl
  · exact claim_C7 [⟨false, false, 0, false, fun _ => 0, none⟩]
      (by intro e he; rw [List.mem_singleton] at he; subst he; rfl)
      ⟨fun _ => 1, fun _ => 1, 1⟩

/-- Claim C10: the beat intensity starts at `0` and every tick keeps it in
the closed interval `[0, 1]` exactly: it is in `[0, 1]` in every reachable
state, and a single tick from any state with beat intensity in `[0, 1]`
(playing with smoothing and the probabilistic drop, or the not-playing
fade) stays in `[0, 1]`. -/
theorem claim_C10 :
    visInit.beat_intensity = 0 ∧
    (∀ s : VisState, VisReachable s →
      0 ≤ s.beat_intensity ∧ s.beat_intensity ≤ 1) ∧
    (∀ (env : VisEnv) (s : VisState),
      0 ≤ s.beat_intensity → s.beat_intensity ≤ 1 →
      0 ≤ (generate_visualizer_data env s).beat_intensity ∧
        (generate_visualizer_data env s).beat_intensity ≤ 1) := by
  refine ⟨rfl, fun s hs => (visInv_reachable hs).2.2.2, fun env s h0 h1 => ?_⟩
  unfold generate_visualizer_data
  split_ifs with hp
  · rw [playing_tick_bi]
    exact beat_update_mem env.drop _ _ (beat_of_mem env.current_time) ⟨h0, h1⟩
  · unfold fade_tick
    simp only
    constructor <;> linarith

/-- Witness for C10: the bound at the startup state, via the theorem's
reachable-state conjunct. -/
theorem claim_C10_witness :
    0 ≤ visInit.beat_intensity ∧ visInit.beat_intensity ≤ 1 :=
  claim_C10.2.1 visInit .init

/-- Counterexample to C5 as stated: at drawing width `30` the available
width is `26 < 64`, `max(1, 26 // 64)` forces every bar to one column, and
the assigned columns total `64 + 26 = 90`, overflowing the available
width. -/
theorem claim_C5_counterexample :
    ¬ total_bar_width 30 = available_width 30 := by
  decide

/-- Claim C5 (amended): whenever the available width (`width - 4`) is at
least the band count 64, the per-bar column widths assigned by
`draw_visualizer` sum to exactly the available width. -/
theorem claim_C5 (width : ℤ) (h : 64 ≤ available_width width) :
    total_bar_width width = available_width width := by
  have hbw : bar_width width = available_width width / 64 := by
    unfold bar_width
    have h1 : 1 ≤ available_width width / 64 := by omega
    exact max_eq_right h1
  have hr0 : 0 ≤ width_remainder width := by
    unfold width_remainder
    omega
  have hr64 : width_remainder width < 64 := by
    unfold width_remainder
    omega
  have hcast : ∀ i ∈ Finset.range 64,
      (if (i : ℤ) < width_remainder width then (1 : ℤ) else 0) =
        (if i < (width_remainder width).toNat then (1 : ℤ) else 0) := by
    intro i _
    by_cases hc : (i : ℤ) < width_remainder width
    · rw [if_pos hc, if_pos (by omega)]
    · rw [if_neg hc, if_neg (by omega)]
  unfold total_bar_width current_bar_width
  rw [Finset.sum_add_distrib, Finset.sum_const, Finset.card_range,
    Finset.sum_congr rfl hcast,
    sum_range_ite_lt (width_remainder width).toNat 64 (by omega), hbw]
  have : ((width_remainder width).toNat : ℤ) = width_remainder width := by
    omega
  rw [this, nsmul_eq_mul]
  push_cast
  unfold width_remainder
  have := Int.ediv_add_emod (available_width width) 64
  omega

/-- Witness for the amended C5 at width `100` (available width `96`). -/
theorem claim_C5_witness :
    64 ≤ available_width 100 ∧ total_bar_width 100 = available_width 100 :=
  ⟨by decide, claim_C5 100 (by decide)⟩
